import Mathlib

/-!
Formal model of the Discord notification extension
(src/extensions/discord-notify/index.ts).

The extension bridges a coding-agent session and a Discord thread: it keeps a
durable session-to-thread binding map, a muted-thread set, and an in-memory
watched-thread index; it routes inbound Discord messages (text, voice, images)
into the agent as turns, mirrors agent output back into the bound thread, and
interprets emoji reactions as mute and delete commands.

All definitions below are shallow embeddings of the TypeScript source.
External effects (Discord API calls, ffmpeg, the speech model, the LLM) are
modelled as oracle parameters; every handler is a pure function from the
extension state and its oracles to a new state plus an ordered trace of
attempted side effects.
-/

namespace DiscordNotify

-- ── Association lists (JS plain objects / Maps, keyed lookup) ─────────────

/-- First-match lookup in an association list (JS object property read). -/
def alookup {α : Type} : List (String × α) → String → Option α
  | [], _ => none
  | (k, v) :: t, key => if k = key then some v else alookup t key

/-- Remove every entry with the given key (JS delete / Map.delete). -/
def aerase {α : Type} : List (String × α) → String → List (String × α)
  | [], _ => []
  | (k, v) :: t, key => if k = key then aerase t key else (k, v) :: aerase t key

/-- Key update (JS property write / Map.set): old entry removed, new appended. -/
def aset {α : Type} (l : List (String × α)) (key : String) (v : α) : List (String × α) :=
  aerase l key ++ [(key, v)]

/-- Set insertion for the muted-thread set (JS Set.add). -/
def sinsert (l : List String) (x : String) : List String :=
  if x ∈ l then l else l ++ [x]

theorem alookup_append {α : Type} (l₁ l₂ : List (String × α)) (key : String) :
    alookup (l₁ ++ l₂) key =
      match alookup l₁ key with
      | some v => some v
      | none => alookup l₂ key := by
  induction l₁ with
  | nil => rfl
  | cons hd tl ih =>
    obtain ⟨k, v⟩ := hd
    by_cases hk : k = key <;> simp [alookup, hk, ih]

theorem alookup_aerase_self {α : Type} (l : List (String × α)) (key : String) :
    alookup (aerase l key) key = none := by
  induction l with
  | nil => rfl
  | cons hd tl ih =>
    obtain ⟨k, v⟩ := hd
    by_cases hk : k = key <;> simp [aerase, alookup, hk, ih]

theorem alookup_aerase_ne {α : Type} (l : List (String × α)) (key other : String)
    (h : other ≠ key) : alookup (aerase l key) other = alookup l other := by
  induction l with
  | nil => rfl
  | cons hd tl ih =>
    obtain ⟨k, v⟩ := hd
    by_cases hk : k = key
    · subst hk
      simp [aerase, alookup, Ne.symm h, ih]
    · by_cases ho : k = other
      · subst ho
        simp [aerase, alookup, hk, h, ih]
      · simp [aerase, alookup, hk, ho, ih]

theorem alookup_aset_self {α : Type} (l : List (String × α)) (key : String) (v : α) :
    alookup (aset l key v) key = some v := by
  simp [aset, alookup_append, alookup_aerase_self, alookup]

theorem alookup_aset_ne {α : Type} (l : List (String × α)) (key other : String) (v : α)
    (h : other ≠ key) : alookup (aset l key v) other = alookup l other := by
  simp only [aset, alookup_append, alookup_aerase_ne l key other h, alookup,
    if_neg (Ne.symm h)]
  cases alookup l other <;> simp

theorem mem_sinsert_self (l : List String) (x : String) : x ∈ sinsert l x := by
  by_cases h : x ∈ l <;> simp [sinsert, h]

-- ── JS string primitives used by the source ───────────────────────────────

/-- JS String.prototype.slice with start 0: a negative end counts from the end
of the string, and the end is clamped to the length. -/
def jsSliceEnd (s : String) (e : Int) : String :=
  List.asString
    (s.toList.take (if e < 0 then (Int.ofNat s.toList.length + e).toNat else e.toNat))

/-- JS String.prototype.trim: drop whitespace from both ends. -/
def jsTrim (s : String) : String :=
  List.asString
    (((s.toList.dropWhile Char.isWhitespace).reverse.dropWhile Char.isWhitespace).reverse)

/-- Head of a JS String.prototype.split on a separator character. -/
def jsSplitHead (s : String) (sep : Char) : String :=
  List.asString (s.toList.takeWhile (fun c => c ≠ sep))

-- ── truncateText and thread naming (source lines 135-138, 521-529) ────────

/-- Source function truncateText: a string within the limit is returned
unchanged, otherwise the prefix of length maxLen - 3 is kept and an ellipsis
marker is appended. -/
def truncateText (text : String) (maxLen : Nat) : String :=
  if text.length ≤ maxLen then text
  else jsSliceEnd text ((maxLen : Int) - 3) ++ "..."

/-- Source function makeThreadName: project directory base name joined with
the session name (or a fallback label), truncated to the 100-character
Discord thread-name limit. -/
def makeThreadName (project : String) (sessionName : Option String) : String :=
  match sessionName with
  | some n =>
    if n = "" then truncateText (project ++ " — new session") 100
    else truncateText (project ++ " — " ++ n) 100
  | none => truncateText (project ++ " — new session") 100

theorem asString_length (l : List Char) : (List.asString l).length = l.length := rfl

theorem append_toList (s t : String) : (s ++ t).toList = s.toList ++ t.toList := by
  cases s with
  | mk ds =>
    cases t with
    | mk dt => rfl

theorem string_length_toList (s : String) : s.length = s.toList.length := rfl

theorem truncateText_length_le (text : String) (maxLen : Nat) (h : 3 ≤ maxLen) :
    (truncateText text maxLen).length ≤ maxLen := by
  unfold truncateText
  by_cases hle : text.length ≤ maxLen
  · simp [hle]
  · have hlt : maxLen < text.length := Nat.lt_of_not_le hle
    have he : ¬ ((maxLen : Int) - 3 < 0) := by omega
    have htn : ((maxLen : Int) - 3).toNat = maxLen - 3 := by omega
    simp only [hle, if_false, jsSliceEnd, he, if_false, htn]
    have h1 : (List.asString (text.toList.take (maxLen - 3)) ++ "...").length
        = (List.asString (text.toList.take (maxLen - 3))).length + 3 :=
      String.length_append _ _
    have h2 : (List.asString (text.toList.take (maxLen - 3))).length
        = min (maxLen - 3) text.toList.length := by
      rw [asString_length, List.length_take]
    have h3 : text.length = text.toList.length := rfl
    omega

theorem makeThreadName_length_le (project : String) (sessionName : Option String) :
    (makeThreadName project sessionName).length ≤ 100 := by
  unfold makeThreadName
  cases sessionName with
  | none => exact truncateText_length_le _ _ (by omega)
  | some n =>
    by_cases hn : n = "" <;>
      simp [hn, truncateText_length_le _ 100 (by omega)]

/-- Claim C9: truncateText keeps a string already within the limit unchanged;
a longer string becomes a prefix of itself followed by the ellipsis marker,
and the result never exceeds the limit (both platform limits used by the
source, 100 for thread names and 1900 for mirrored bodies, satisfy the
3-or-more hypothesis); every thread name produced by makeThreadName is within
the 100-character platform ceiling. -/
theorem truncateText_respects_platform_limit (text : String) (maxLen : Nat) (h : 3 ≤ maxLen) :
    (text.length ≤ maxLen → truncateText text maxLen = text) ∧
    (maxLen < text.length →
      (truncateText text maxLen).toList = text.toList.take (maxLen - 3) ++ "...".toList ∧
      text.toList.take (maxLen - 3) <+: text.toList) ∧
    (truncateText text maxLen).length ≤ maxLen ∧
    (∀ project sessionName, (makeThreadName project sessionName).length ≤ 100) := by
  refine ⟨fun hle => by simp [truncateText, hle], fun hlt => ?_,
    truncateText_length_le text maxLen h, fun p sn => makeThreadName_length_le p sn⟩
  have hle : ¬ text.length ≤ maxLen := Nat.not_le_of_lt hlt
  have he : ¬ ((maxLen : Int) - 3 < 0) := by omega
  have htn : ((maxLen : Int) - 3).toNat = maxLen - 3 := by omega
  constructor
  · simp only [truncateText, hle, if_false, jsSliceEnd, he, if_false, htn]
    rw [append_toList]
    rfl
  · exact List.take_prefix _ _

/-- Witness for C9 at a concrete input: the 8-character string abcdefgh
truncated to limit 5 keeps a 2-character prefix plus the ellipsis. -/
theorem truncateText_respects_platform_limit_witness :
    3 ≤ 5 ∧ ((truncateText "abcdefgh" 5).toList = "abcdefgh".toList.take 2 ++ "...".toList ∧
      "abcdefgh".toList.take 2 <+: "abcdefgh".toList) ∧
      (truncateText "abcdefgh" 5).length ≤ 5 :=
  ⟨by decide,
    (truncateText_respects_platform_limit "abcdefgh" 5 (by decide)).2.1 (by decide),
    (truncateText_respects_platform_limit "abcdefgh" 5 (by decide)).2.2.1⟩

-- ── Core data model (source lines 63-82, 299-319) ─────────────────────────

/-- Source interface DiscordConfig: the persisted configuration object. -/
structure DiscordConfig where
  channelId : String
  enabled : Bool
  minDurationMs : Nat
  includePreview : Bool
deriving DecidableEq, Repr

/-- Discord channel types relevant to the source: forum channels, plain text
channels, anything else. -/
inductive ChannelKind where
  | guildForum
  | guildText
  | other
deriving DecidableEq, Repr

/-- Process-wide mutable state of the extension closure: the three durable
maps plus the in-memory flags and caches (source lines 300-313, 515). -/
structure ExtState where
  config : Option DiscordConfig
  /-- session file path to thread id (the persisted ThreadMap) -/
  threads : List (String × String)
  /-- muted thread ids (the persisted muted set) -/
  mutedThreads : List String
  /-- thread id to session key (in-memory watched-thread index) -/
  watchedThreads : List (String × String)
  agentStartTime : Nat
  clientLive : Bool
  isForum : Bool
  isAgentBusy : Bool
  currentSessionFile : Option String
  lastKnownSessionName : Option String
  threadAutoNamed : Bool
deriving DecidableEq, Repr

/-- Side effects attempted by the handlers, in program order. -/
inductive Action where
  | saveConfigAct (c : DiscordConfig)
  | saveThreadsAct (m : List (String × String))
  | saveMutedAct (m : List String)
  | reactAct (emoji : String)
  | replyAct (content : String)
  | sendAct (threadId : String) (content : String)
  | sendEmbedAct (threadId : String) (project : String) (durationStr : String) (cwd : String)
  | waitAct (ms : Nat)
  | deleteThreadAct (threadId : String)
  | fetchChannelAct (channelId : String)
  | fetchThreadAct (threadId : String)
  | unarchiveAct (threadId : String)
  | createThreadAct (kind : ChannelKind) (name : String) (newId : String)
  | seedMessageAct (content : String)
  | seedEmbedAct
  | loginAct
  | renameAct (threadId : String) (name : String)
  | logErrorAct
deriving DecidableEq, Repr

/-- One Discord attachment: its URL and MIME content type (possibly absent). -/
structure Attachment where
  url : String
  contentType : Option String
deriving DecidableEq, Repr

/-- The fields of an inbound Discord message the handler reads. -/
structure Msg where
  authorBot : Bool
  isThread : Bool
  channelId : String
  flagsVoice : Bool
  attachments : List Attachment
  content : String
deriving DecidableEq, Repr

/-- JS optional-chain test a.contentType?.includes(pat). -/
def ctIncludes (ct : Option String) (pat : String) : Bool :=
  match ct with
  | none => false
  | some s => decide (pat.toList <:+: s.toList)

/-- JS optional-chain test a.contentType?.startsWith(pat). -/
def ctStartsWith (ct : Option String) (pat : String) : Bool :=
  match ct with
  | none => false
  | some s => decide (pat.toList <+: s.toList)

-- ── Voice transcription pipeline (source lines 211-251) ───────────────────

/-- Outcomes of the independently failable steps of one transcription run:
the download, the ffmpeg conversion, the WAV decode, and the recognizer
output (none models a missing or thrown result). -/
structure VoiceStep where
  fetchOk : Bool
  ffmpegOk : Bool
  readWavOk : Bool
  asrText : Option String
deriving Repr

/-- Raw result of one image fetch: HTTP ok flag, content-type header, body. -/
structure FetchImg where
  ok : Bool
  contentType : Option String
  base64 : String
deriving DecidableEq, Repr

/-- External-world oracles for the message handler: per-URL outcomes of the
voice pipeline steps and of image fetches (none models a thrown fetch). -/
structure Env where
  voice : String → VoiceStep
  imgFetch : String → Option FetchImg

/-- Source function transcribeVoiceMessage: download, convert, decode,
recognize; any failing step yields none, and an empty trimmed result is
coerced to none by the trailing or-null. -/
def transcribeVoiceMessage (env : Env) (url : String) : Option String :=
  let v := env.voice url
  if !v.fetchOk then none
  else if !v.ffmpegOk then none
  else if !v.readWavOk then none
  else
    match v.asrText with
    | none => none
    | some s =>
      let t := jsTrim s
      if t = "" then none else some t

/-- Source function downloadImageAsBase64: fetch the URL, default the media
type to image/png, keep only the part before any semicolon, and fall back to
image/png for unsupported types. -/
def downloadImageAsBase64 (env : Env) (url : String) : Option (String × String) :=
  match env.imgFetch url with
  | none => none
  | some f =>
    if !f.ok then none
    else
      let ct := match f.contentType with
        | some c => c
        | none => "image/png"
      let mt := jsTrim (jsSplitHead ct ';')
      let mediaType :=
        if mt = "image/png" ∨ mt = "image/jpeg" ∨ mt = "image/gif" ∨ mt = "image/webp"
        then mt else "image/png"
      some (f.base64, mediaType)

-- ── Inbound message router (source lines 338-433) ─────────────────────────

/-- One part of a multi-part agent turn. -/
inductive ContentPart where
  | textPart (text : String)
  | imagePart (mimeType : String) (data : String)
deriving DecidableEq, Repr

/-- The payload handed to pi.sendUserMessage: a plain string or parts. -/
inductive TurnContent where
  | plain (text : String)
  | parts (ps : List ContentPart)
deriving DecidableEq, Repr

/-- How a turn is handed to the agent host. -/
inductive DeliveryMode where
  | immediate
  | followUp
deriving DecidableEq, Repr

/-- Delivery decision at each pi.sendUserMessage call site: follow-up while
the agent is busy, immediate otherwise (source lines 410-414, 425-429). -/
def deliveryModeOf (busy : Bool) : DeliveryMode :=
  if busy then DeliveryMode.followUp else DeliveryMode.immediate

/-- The first audio attachment of a voice-flagged message (source 351-354). -/
def voiceAttachmentOf (m : Msg) : Option Attachment :=
  if m.flagsVoice then m.attachments.find? (fun a => ctIncludes a.contentType "audio")
  else none

/-- The image attachments of a message, in attachment order (source 357-359). -/
def imageAttachmentsOf (m : Msg) : List Attachment :=
  m.attachments.filter (fun a => ctStartsWith a.contentType "image/")

/-- The image parts obtained from the attachments that download successfully
(source lines 391-400). -/
def imageParts (env : Env) (atts : List Attachment) : List ContentPart :=
  atts.filterMap (fun a =>
    (downloadImageAsBase64 env a.url).map (fun d => ContentPart.imagePart d.2 d.1))

/-- Image and plain-text classification tail of the messageCreate handler
(source lines 382-432), after any voice handling fixed the text: build the
multi-part turn when images are present (dropping it silently when no part
was built), otherwise deliver the nonempty text verbatim. -/
def routeTextAndImages (env : Env) (m : Msg) (preActs : List Action) (text : String) :
    List Action × Option TurnContent :=
  let imgs := imageAttachmentsOf m
  if imgs.length > 0 then
    let baseParts := if text = "" then [] else [ContentPart.textPart text]
    let contentParts := baseParts ++ imageParts env imgs
    if contentParts.length = 0 then (preActs ++ [Action.reactAct "🖼️"], none)
    else
      let finalParts :=
        if text = "" then ContentPart.textPart "Here's an image from Discord:" :: contentParts
        else contentParts
      (preActs ++ [Action.reactAct "🖼️"], some (TurnContent.parts finalParts))
  else if text = "" then (preActs, none)
  else (preActs, some (TurnContent.plain text))

/-- Acceptance and classification of the messageCreate handler (source lines
338-432) without the final busy-state reading: bot authors, non-thread
channels, unwatched threads and foreign sessions are dropped; a voice
attachment is transcribed, replacing the text and echoing the transcription,
or dropping the turn with an error reply on failure. -/
def messageCreateCore (st : ExtState) (env : Env) (m : Msg) :
    List Action × Option TurnContent :=
  if m.authorBot then ([], none)
  else if !m.isThread then ([], none)
  else
    match alookup st.watchedThreads m.channelId with
    | none => ([], none)
    | some sessionKey =>
      if sessionKey = "" then ([], none)
      else if st.currentSessionFile = some sessionKey then
        match voiceAttachmentOf m with
        | some va =>
          match transcribeVoiceMessage env va.url with
          | some t =>
            routeTextAndImages env m
              [Action.reactAct "🎙️", Action.replyAct ("🎙️ *\"" ++ t ++ "\"*")] t
          | none =>
            ([Action.reactAct "🎙️", Action.replyAct "❌ Failed to transcribe voice message"],
              none)
        | none => routeTextAndImages env m [] m.content
      else ([], none)

/-- Full messageCreate handler: the accepted turn is delivered through
pi.sendUserMessage with the mode decided by the busy flag read at the call
site (source lines 409-414, 424-429). -/
def messageCreate (st : ExtState) (env : Env) (m : Msg) :
    List Action × Option (TurnContent × DeliveryMode) :=
  let core := messageCreateCore st env m
  (core.1, core.2.map (fun tc => (tc, deliveryModeOf st.isAgentBusy)))

-- ── Reaction control state machine (source lines 436-484) ─────────────────

/-- The fields of a reaction-added event the handler reads. -/
structure ReactionEvent where
  userBot : Bool
  isThread : Bool
  threadId : String
  emoji : String
deriving DecidableEq, Repr

/-- The messageReactionAdd handler: mute reactions add the thread to the
muted set and persist it; mute-plus-delete additionally removes the binding
and the watched index entry, persists the binding map, posts a countdown,
waits, then attempts deletion. sendOk models whether posting into the thread
succeeds, deleteOk whether the deletion succeeds; both failures are caught
and only logged. -/
def messageReactionAdd (st : ExtState) (ev : ReactionEvent) (sendOk deleteOk : Bool) :
    ExtState × List Action :=
  if ev.userBot then (st, [])
  else if !ev.isThread then (st, [])
  else
    match alookup st.watchedThreads ev.threadId with
    | none => (st, [])
    | some sessionKey =>
      if sessionKey = "" then (st, [])
      else if ev.emoji = "🔇" then
        let muted := sinsert st.mutedThreads ev.threadId
        ({ st with mutedThreads := muted },
          [Action.saveMutedAct muted,
            Action.sendAct ev.threadId
              "🔇 Thread muted — no more notifications will be sent here."] ++
          (if sendOk then [Action.reactAct "✅"] else []))
      else if ev.emoji = "🗑️" then
        let muted := sinsert st.mutedThreads ev.threadId
        let watched := aerase st.watchedThreads ev.threadId
        let thr := if sessionKey = "" then st.threads else aerase st.threads sessionKey
        let saveActs := [Action.saveMutedAct muted] ++
          (if sessionKey = "" then [] else [Action.saveThreadsAct thr])
        let tailActs :=
          [Action.sendAct ev.threadId "🗑️ Thread will be deleted in 3 seconds..."] ++
          (if sendOk then
            [Action.waitAct 3000, Action.deleteThreadAct ev.threadId] ++
              (if deleteOk then [] else [Action.logErrorAct])
          else [Action.logErrorAct])
        ({ st with mutedThreads := muted, watchedThreads := watched, threads := thr },
          saveActs ++ tailActs)
      else (st, [])

-- ── Thread resolver (source lines 616-689) ────────────────────────────────

/-- Outcome of fetching a bound thread id: a thread (possibly archived), a
non-thread channel or null, or a thrown fetch (deleted or inaccessible). -/
inductive FetchResult where
  | thread (archived : Bool)
  | notThread
  | fetchError
deriving DecidableEq, Repr

/-- External-world oracles for one resolver run: the bound-thread fetch, the
un-archive call, the configured channel fetch (none models null or a throw),
the id Discord assigns to a newly created thread, and whether the creation
calls succeed. -/
structure ResolveEnv where
  fetchThread : String → FetchResult
  unarchiveOk : Bool
  channel : Option ChannelKind
  newThreadId : String
  createOk : Bool

/-- The session-derived context the resolver reads: base name of the
working directory and the session file key. -/
structure Ctx where
  cwdBase : String
  cwd : String
  sessionKey : Option String
deriving DecidableEq, Repr

/-- Stale-binding eviction inside the catch of the thread fetch (source
lines 638-644): drop the binding and the watched index entry. -/
def evictStale (st : ExtState) (sessionKey : Option String) (tid : String) : ExtState :=
  match sessionKey with
  | some sk =>
    if sk = "" then st
    else { st with threads := aerase st.threads sk,
                   watchedThreads := aerase st.watchedThreads tid }
  | none => st

/-- The saveThreads call accompanying the eviction, guarded like the source
by the truthiness of the session key. -/
def evictActs (st1 : ExtState) (sessionKey : Option String) : List Action :=
  match sessionKey with
  | some sk => if sk = "" then [] else [Action.saveThreadsAct st1.threads]
  | none => []

/-- Thread creation step of the resolver (source lines 647-688): fetch the
configured channel, create a forum entry or a sub-thread with the seed
message, record and persist the new binding when a session key exists. -/
def createNewThread (st : ExtState) (cfg : DiscordConfig) (renv : ResolveEnv) (ctx : Ctx)
    (sessionName : Option String) (hasEmbed : Bool) (preActs : List Action) :
    ExtState × List Action × Option String :=
  let threadName := makeThreadName ctx.cwdBase sessionName
  let fetchAct := Action.fetchChannelAct cfg.channelId
  match renv.channel with
  | none => (st, preActs ++ [fetchAct], none)
  | some ChannelKind.other => (st, preActs ++ [fetchAct], none)
  | some k =>
    if !renv.createOk then (st, preActs ++ [fetchAct], none)
    else
      let tid := renv.newThreadId
      let createActs :=
        match k with
        | ChannelKind.guildForum =>
          [Action.createThreadAct ChannelKind.guildForum threadName tid,
            if hasEmbed then Action.seedEmbedAct
            else Action.seedMessageAct ("🤖 pi session started — " ++ threadName)]
        | _ =>
          [Action.createThreadAct ChannelKind.guildText threadName tid] ++
            (if hasEmbed then [Action.seedEmbedAct] else [])
      match ctx.sessionKey with
      | some sk =>
        if sk = "" then (st, preActs ++ [fetchAct] ++ createActs, some tid)
        else
          let st2 := { st with threads := aset st.threads sk tid,
                               watchedThreads := aset st.watchedThreads tid sk }
          (st2, preActs ++ [fetchAct] ++ createActs ++ [Action.saveThreadsAct st2.threads],
            some tid)
      | none => (st, preActs ++ [fetchAct] ++ createActs, some tid)

/-- Source function getOrCreateThread: resolve the thread bound to the
session key; a muted binding yields null before any fetch; an existing
binding is fetched and un-archived if needed; a failed fetch evicts the
stale binding, persists, and falls through to creation. -/
def getOrCreateThread (st : ExtState) (renv : ResolveEnv) (ctx : Ctx)
    (sessionName : Option String) (hasEmbed : Bool) :
    ExtState × List Action × Option String :=
  if !st.clientLive then (st, [], none)
  else
    match st.config with
    | none => (st, [], none)
    | some cfg =>
      let existingThreadId :=
        match ctx.sessionKey with
        | some sk => if sk = "" then none else alookup st.threads sk
        | none => none
      match existingThreadId with
      | some tid =>
        if tid ∈ st.mutedThreads then (st, [], none)
        else
          match renv.fetchThread tid with
          | FetchResult.thread ar =>
            if ar then
              if renv.unarchiveOk then
                (st, [Action.fetchThreadAct tid, Action.unarchiveAct tid], some tid)
              else
                let st1 := evictStale st ctx.sessionKey tid
                createNewThread st1 cfg renv ctx sessionName hasEmbed
                  ([Action.fetchThreadAct tid, Action.unarchiveAct tid] ++
                    evictActs st1 ctx.sessionKey)
            else (st, [Action.fetchThreadAct tid], some tid)
          | FetchResult.notThread =>
            createNewThread st cfg renv ctx sessionName hasEmbed [Action.fetchThreadAct tid]
          | FetchResult.fetchError =>
            let st1 := evictStale st ctx.sessionKey tid
            createNewThread st1 cfg renv ctx sessionName hasEmbed
              ([Action.fetchThreadAct tid] ++ evictActs st1 ctx.sessionKey)
      | none => createNewThread st cfg renv ctx sessionName hasEmbed []

-- ── Gateway connection manager (source lines 317-511) ─────────────────────

/-- Structured result of a start attempt (never thrown). -/
structure StartResult where
  ok : Bool
  error : Option String
deriving DecidableEq, Repr

/-- External-world oracles for one start attempt: the raw token environment
variable, whether client.login succeeds, the login error text, whether the
configured-channel fetch succeeds, its error text, and the fetched channel
type (none models a null channel). -/
structure StartEnv where
  token : Option String
  loginOk : Bool
  loginErr : String
  channelFetchOk : Bool
  fetchErr : String
  channelKind : Option ChannelKind

/-- Source function getBotToken: the environment variable coerced to null
when absent or empty (the or-null). -/
def getBotToken (token : Option String) : Option String :=
  match token with
  | some s => if s = "" then none else some s
  | none => none

/-- Watched-thread index rebuild on connect (source lines 494-496): every
binding entry is written into the existing in-memory index. -/
def rebuildWatched (threads watched : List (String × String)) : List (String × String) :=
  threads.foldl (fun w p => aset w p.2 p.1) watched

/-- Source function startBot: a missing token and any connect failure return
a structured failure with the client left disconnected; a live client makes
a second start a no-op success; on success the channel type is detected and
the watched index rebuilt from the binding map. A null config makes the
channel-id read throw inside the try, which the catch converts into a
structured failure. -/
def startBot (st : ExtState) (env : StartEnv) : ExtState × List Action × StartResult :=
  match getBotToken env.token with
  | none =>
    (st, [], { ok := false, error := some "DISCORD_BOT_TOKEN environment variable not set" })
  | some _ =>
    if st.clientLive then (st, [], { ok := true, error := none })
    else if !env.loginOk then
      ({ st with clientLive := false }, [Action.loginAct],
        { ok := false, error := some env.loginErr })
    else
      match st.config with
      | none =>
        ({ st with clientLive := false }, [Action.loginAct],
          { ok := false, error := some "Cannot read properties of null (reading channelId)" })
      | some cfg =>
        if !env.channelFetchOk then
          ({ st with clientLive := false },
            [Action.loginAct, Action.fetchChannelAct cfg.channelId],
            { ok := false, error := some env.fetchErr })
        else
          ({ st with clientLive := true,
                     isForum := (match env.channelKind with
                       | some ChannelKind.guildForum => true
                       | _ => false),
                     watchedThreads := rebuildWatched st.threads st.watchedThreads },
            [Action.loginAct, Action.fetchChannelAct cfg.channelId],
            { ok := true, error := none })

-- ── Outbound notifier: agent lifecycle handlers (source lines 738-814) ────

/-- The agent_start handler: record the turn start time, set the busy flag. -/
def agentStartHandler (st : ExtState) (now : Nat) : ExtState :=
  { st with agentStartTime := now, isAgentBusy := true }

/-- One content part of a chat message as stored in the session history. -/
structure ChatPart where
  ptype : String
  text : String
deriving DecidableEq, Repr

/-- Message content: a bare string or an array of typed parts. -/
inductive ChatContent where
  | str (s : String)
  | arr (ps : List ChatPart)
deriving DecidableEq, Repr

/-- One message of the event history handed to agent_end. -/
structure ChatMsg where
  role : String
  content : ChatContent
deriving DecidableEq, Repr

/-- Joined text parts of an array-valued message content (source 147-150). -/
def partsText (ps : List ChatPart) : String :=
  String.intercalate "\n" ((ps.filter (fun c => c.ptype = "text")).map (fun c => c.text))

/-- Backward scan of extractLastAssistantText over the reversed history. -/
def extractGo : List ChatMsg → Option String
  | [] => none
  | msg :: rest =>
    if msg.role = "assistant" then
      match msg.content with
      | ChatContent.str s => some s
      | ChatContent.arr ps =>
        let textParts := partsText ps
        if textParts = "" then extractGo rest else some textParts
    else extractGo rest

/-- Source function extractLastAssistantText: the latest assistant message
with string content (returned verbatim) or with nonempty joined text parts. -/
def extractLastAssistantText (msgs : List ChatMsg) : Option String :=
  extractGo msgs.reverse

/-- JS truthiness of a nullable string. -/
def optTruthy : Option String → Bool
  | none => false
  | some s => !(s == "")

/-- Truthiness of the optional config enabled flag (config?.enabled). -/
def cfgEnabled (st : ExtState) : Bool :=
  match st.config with
  | some c => c.enabled
  | none => false

/-- Source function renameCurrentThread: needs a live client, a current
session file and a bound thread; emits one rename attempt with the name
truncated to the 100-character limit. -/
def renameCurrentThread (st : ExtState) (name : String) : List Action :=
  if !st.clientLive then []
  else
    match st.currentSessionFile with
    | none => []
    | some csf =>
      if csf = "" then []
      else
        match alookup st.threads csf with
        | none => []
        | some tid =>
          if tid = "" then [] else [Action.renameAct tid (truncateText name 100)]

/-- Auto-rename block at the top of agent_end (source lines 747-765): when a
session name newly appears or changes, rename from it; otherwise, once per
session and only while no name exists, rename from an LLM-generated title
(the generated oracle models the LLM call). -/
def agentEndRename (st0 : ExtState) (ctx : Ctx) (sessionName generated : Option String) :
    ExtState × List Action :=
  let renameGuard := cfgEnabled st0 && st0.clientLive && optTruthy st0.currentSessionFile &&
    optTruthy (st0.currentSessionFile.bind (fun c => alookup st0.threads c))
  if renameGuard then
    let nameChanged :=
      match sessionName with
      | some n => if n = "" then false else decide (st0.lastKnownSessionName ≠ some n)
      | none => false
    if nameChanged then
      let st1 := { st0 with lastKnownSessionName := sessionName, threadAutoNamed := true }
      (st1, renameCurrentThread st1 (makeThreadName ctx.cwdBase sessionName))
    else if !st0.threadAutoNamed && !(optTruthy sessionName) then
      let st1 := { st0 with threadAutoNamed := true }
      (st1,
        match generated with
        | some g =>
          if g = "" then []
          else renameCurrentThread st1 (truncateText (ctx.cwdBase ++ " — " ++ g) 100)
        | none => [])
    else (st0, [])
  else (st0, [])

/-- JS Math.round of duration / 1000 for a nonnegative duration. -/
def roundSeconds (duration : Nat) : Nat :=
  (duration + 500) / 1000

/-- Duration formatting of agent_end (source lines 770-772). -/
def durationStrOf (duration : Nat) : String :=
  let durationSec := roundSeconds duration
  if durationSec ≥ 60 then
    toString (durationSec / 60) ++ "m " ++ toString (durationSec % 60) ++ "s"
  else toString durationSec ++ "s"

/-- The agent_end handler (source lines 743-814): clear the busy flag, run
the auto-rename block, then resolve the thread and mirror the last assistant
text as plain content; independently send the attention embed when the turn
duration reached the configured minimum. -/
def agentEnd (st : ExtState) (renv : ResolveEnv) (ctx : Ctx) (now : Nat)
    (sessionName generated : Option String) (eventMessages : Option (List ChatMsg)) :
    ExtState × List Action :=
  let st0 := { st with isAgentBusy := false }
  let r := agentEndRename st0 ctx sessionName generated
  let st1 := r.1
  let racts := r.2
  if !(cfgEnabled st1) then (st1, racts)
  else if !st1.clientLive then (st1, racts)
  else
    match st1.config with
    | none => (st1, racts)
    | some cfg =>
      let duration := now - st1.agentStartTime
      let lastMessage :=
        match eventMessages with
        | some msgs => extractLastAssistantText msgs
        | none => none
      let g := getOrCreateThread st1 renv ctx sessionName false
      let st2 := g.1
      let gacts := g.2.1
      match g.2.2 with
      | none => (st2, racts ++ gacts)
      | some tid =>
        let sendActs :=
          match lastMessage with
          | some lm =>
            if lm = "" then [] else [Action.sendAct tid (truncateText lm 1900)]
          | none => []
        let embedActs :=
          if duration ≥ cfg.minDurationMs then
            [Action.sendEmbedAct tid ctx.cwdBase (durationStrOf duration) ctx.cwd]
          else []
        (st2, racts ++ gacts ++ sendActs ++ embedActs)

-- ── Host-side turn delivery (spec section 4.4 and the glossary) ───────────

/-- Events reaching the process, in platform delivery order. -/
inductive HostEvent where
  | agentTurnStart
  | agentTurnEnd
  | platformMsg (m : Msg)

/-- Host-side delivery state: the busy flag maintained by the agent_start
and agent_end handlers, the queued follow-up turns, and the turns already
handed to the agent, in order. -/
structure HostState where
  busy : Bool
  pending : List TurnContent
  delivered : List TurnContent
deriving Repr

/-- Modelled from the spec: pi.sendUserMessage and the follow-up queue are
part of the agent host, not of this repository. Per the spec, a follow-up
turn is appended to run after the current turn completes, preserving arrival
order, while an immediate send becomes a new turn at once. Each platform
message runs through the messageCreate handler with the busy flag the
lifecycle handlers maintain. -/
def hostStep (st : ExtState) (env : Env) (hs : HostState) : HostEvent → HostState
  | HostEvent.agentTurnStart => { hs with busy := true }
  | HostEvent.agentTurnEnd =>
    { busy := false, pending := [], delivered := hs.delivered ++ hs.pending }
  | HostEvent.platformMsg m =>
    match (messageCreate { st with isAgentBusy := hs.busy } env m).2 with
    | none => hs
    | some (tc, DeliveryMode.immediate) => { hs with delivered := hs.delivered ++ [tc] }
    | some (tc, DeliveryMode.followUp) => { hs with pending := hs.pending ++ [tc] }

/-- Run of the host model over an event trace. -/
def runHost (st : ExtState) (env : Env) : HostState → List HostEvent → HostState
  | hs, [] => hs
  | hs, e :: rest => runHost st env (hostStep st env hs e) rest

/-- The turn content a message produces, independent of the busy flag. -/
def turnOf (st : ExtState) (env : Env) (m : Msg) : Option TurnContent :=
  (messageCreateCore st env m).2

/-- The accepted turns of a trace, in platform delivery order. -/
def acceptedTurns (st : ExtState) (env : Env) (trace : List HostEvent) : List TurnContent :=
  trace.filterMap (fun e =>
    match e with
    | HostEvent.platformMsg m => turnOf st env m
    | _ => none)

-- ── Concrete fixtures used by witnesses ───────────────────────────────────

/-- A configured, enabled setup bound to channel chan1. -/
def cfgA : DiscordConfig :=
  { channelId := "chan1", enabled := true, minDurationMs := 15000, includePreview := true }

/-- A connected state with one session sess1 bound to thread thr1 and the
agent currently busy. -/
def stA : ExtState :=
  { config := some cfgA, threads := [("sess1", "thr1")], mutedThreads := [],
    watchedThreads := [("thr1", "sess1")], agentStartTime := 0, clientLive := true,
    isForum := false, isAgentBusy := true, currentSessionFile := some "sess1",
    lastKnownSessionName := none, threadAutoNamed := true }

/-- Oracles where voice transcription yields hello world (after trimming)
and every image fetch throws. -/
def envA : Env :=
  { voice := fun _ =>
      { fetchOk := true, ffmpegOk := true, readWavOk := true, asrText := some " hello world " },
    imgFetch := fun _ => none }

/-- A plain text reply in the watched thread thr1. -/
def msgText : Msg :=
  { authorBot := false, isThread := true, channelId := "thr1", flagsVoice := false,
    attachments := [], content := "hi" }

-- ── Claim C1: delivery mode and turn ordering ─────────────────────────────

theorem messageCreateCore_busy_irrelevant (st : ExtState) (b : Bool) (env : Env) (m : Msg) :
    messageCreateCore { st with isAgentBusy := b } env m = messageCreateCore st env m := rfl

theorem runHost_delivered_pending (st : ExtState) (env : Env) :
    ∀ (trace : List HostEvent) (hs : HostState), (hs.busy = false → hs.pending = []) →
      (runHost st env hs trace).delivered ++ (runHost st env hs trace).pending
        = hs.delivered ++ (hs.pending ++ acceptedTurns st env trace) := by
  intro trace
  induction trace with
  | nil => intro hs _; simp [runHost, acceptedTurns]
  | cons e rest ih =>
    intro hs hinv
    cases e with
    | agentTurnStart =>
      have h := ih { hs with busy := true } (by intro hb; simp at hb)
      simpa [runHost, hostStep, acceptedTurns] using h
    | agentTurnEnd =>
      have h := ih { busy := false, pending := [], delivered := hs.delivered ++ hs.pending }
        (fun _ => rfl)
      simp only [runHost, hostStep]
      rw [h]
      simp [acceptedTurns, List.append_assoc]
    | platformMsg m =>
      have hcore : (messageCreate { st with isAgentBusy := hs.busy } env m).2
          = (messageCreateCore st env m).2.map (fun tc => (tc, deliveryModeOf hs.busy)) := by
        simp [messageCreate, messageCreateCore_busy_irrelevant]
      have hacc : acceptedTurns st env (HostEvent.platformMsg m :: rest)
          = (match turnOf st env m with
             | some tc => tc :: acceptedTurns st env rest
             | none => acceptedTurns st env rest) := by
        cases h : turnOf st env m <;> simp [acceptedTurns, List.filterMap_cons, h]
      cases hmc : (messageCreateCore st env m).2 with
      | none =>
        have hstep : hostStep st env hs (HostEvent.platformMsg m) = hs := by
          simp [hostStep, hcore, hmc]
        simp only [runHost, hstep, hacc, turnOf, hmc]
        exact ih hs hinv
      | some tc =>
        cases hb : hs.busy with
        | false =>
          rw [hb] at hcore
          have hp : hs.pending = [] := hinv hb
          have hstep : hostStep st env hs (HostEvent.platformMsg m)
              = { hs with delivered := hs.delivered ++ [tc] } := by
            simp [hostStep, hb, hcore, hmc, deliveryModeOf]
          have h := ih { hs with delivered := hs.delivered ++ [tc] }
            (by intro _; exact hp)
          simp only [runHost, hstep]
          rw [h]
          simp [hacc, turnOf, hmc, hp]
        | true =>
          rw [hb] at hcore
          have hstep : hostStep st env hs (HostEvent.platformMsg m)
              = { hs with pending := hs.pending ++ [tc] } := by
            simp [hostStep, hb, hcore, hmc, deliveryModeOf]
          have h := ih { hs with pending := hs.pending ++ [tc] }
            (by intro hb2; rw [hb] at hb2; exact absurd hb2 (by simp))
          simp only [runHost, hstep]
          rw [h]
          simp [hacc, turnOf, hmc, List.append_assoc]

/-- Claim C1: an accepted inbound message is delivered as a follow-up exactly
when the busy flag is set and immediately otherwise, and over any event trace
the turns handed to the agent (delivered plus still-queued follow-ups) are
exactly the accepted platform messages in platform delivery order, whatever
the interleaving of busy and idle transitions. -/
theorem inbound_delivery_mode_and_order :
    (∀ (st : ExtState) (env : Env) (m : Msg) (tc : TurnContent) (mode : DeliveryMode),
      (messageCreate st env m).2 = some (tc, mode) →
      (mode = DeliveryMode.followUp ↔ st.isAgentBusy = true)) ∧
    (∀ (st : ExtState) (env : Env) (b : Bool) (trace : List HostEvent),
      (runHost st env { busy := b, pending := [], delivered := [] } trace).delivered ++
        (runHost st env { busy := b, pending := [], delivered := [] } trace).pending
        = acceptedTurns st env trace) := by
  constructor
  · intro st env m tc mode h
    simp only [messageCreate] at h
    cases hmc : (messageCreateCore st env m).2 with
    | none => rw [hmc] at h; simp at h
    | some tc0 =>
      rw [hmc] at h
      simp only [Option.map_some', Option.some.injEq, Prod.mk.injEq] at h
      rw [← h.2]
      cases hb : st.isAgentBusy <;> simp [deliveryModeOf, hb]
  · intro st env b trace
    have h := runHost_delivered_pending st env trace
      { busy := b, pending := [], delivered := [] } (by intro _; rfl)
    simpa using h

/-- Witness for C1: with the agent busy, the concrete text reply hi is marked
follow-up, and a one-message trace delivers exactly that turn. -/
theorem inbound_delivery_mode_and_order_witness :
    (DeliveryMode.followUp = DeliveryMode.followUp ↔ stA.isAgentBusy = true) ∧
    (runHost stA envA { busy := true, pending := [], delivered := [] }
        [HostEvent.platformMsg msgText]).delivered ++
      (runHost stA envA { busy := true, pending := [], delivered := [] }
        [HostEvent.platformMsg msgText]).pending
      = acceptedTurns stA envA [HostEvent.platformMsg msgText] :=
  ⟨inbound_delivery_mode_and_order.1 stA envA msgText (TurnContent.plain "hi")
      DeliveryMode.followUp (by decide),
    inbound_delivery_mode_and_order.2 stA envA true [HostEvent.platformMsg msgText]⟩

-- ── Claim C2: mute and mute-plus-delete frame effects ─────────────────────

/-- Claim C2: a plain mute reaction by a non-bot user on a watched thread
adds the thread to the muted set and persists it, leaving the binding map
and the watched index untouched and never saving the binding map; a
mute-plus-delete reaction additionally removes the binding entry and the
watched index entry and persists the binding map. -/
theorem mute_reaction_frame_effects (st : ExtState) (tid sk : String) (sendOk deleteOk : Bool)
    (hw : alookup st.watchedThreads tid = some sk) (hsk : sk ≠ "") :
    ((messageReactionAdd st ⟨false, true, tid, "🔇"⟩ sendOk deleteOk).1.mutedThreads
        = sinsert st.mutedThreads tid ∧
      (messageReactionAdd st ⟨false, true, tid, "🔇"⟩ sendOk deleteOk).1.threads = st.threads ∧
      (messageReactionAdd st ⟨false, true, tid, "🔇"⟩ sendOk deleteOk).1.watchedThreads
        = st.watchedThreads ∧
      Action.saveMutedAct (sinsert st.mutedThreads tid)
        ∈ (messageReactionAdd st ⟨false, true, tid, "🔇"⟩ sendOk deleteOk).2 ∧
      (∀ x, Action.saveThreadsAct x
        ∉ (messageReactionAdd st ⟨false, true, tid, "🔇"⟩ sendOk deleteOk).2)) ∧
    ((messageReactionAdd st ⟨false, true, tid, "🗑️"⟩ sendOk deleteOk).1.mutedThreads
        = sinsert st.mutedThreads tid ∧
      (messageReactionAdd st ⟨false, true, tid, "🗑️"⟩ sendOk deleteOk).1.threads
        = aerase st.threads sk ∧
      (messageReactionAdd st ⟨false, true, tid, "🗑️"⟩ sendOk deleteOk).1.watchedThreads
        = aerase st.watchedThreads tid ∧
      alookup (messageReactionAdd st ⟨false, true, tid, "🗑️"⟩ sendOk deleteOk).1.threads sk
        = none ∧
      alookup (messageReactionAdd st ⟨false, true, tid, "🗑️"⟩ sendOk deleteOk).1.watchedThreads
        tid = none ∧
      Action.saveMutedAct (sinsert st.mutedThreads tid)
        ∈ (messageReactionAdd st ⟨false, true, tid, "🗑️"⟩ sendOk deleteOk).2 ∧
      Action.saveThreadsAct (aerase st.threads sk)
        ∈ (messageReactionAdd st ⟨false, true, tid, "🗑️"⟩ sendOk deleteOk).2) := by
  have hne : ("🗑️" : String) ≠ "🔇" := by decide
  constructor
  · refine ⟨?_, ?_, ?_, ?_, ?_⟩ <;>
      · simp only [messageReactionAdd, hw, hsk]
        cases sendOk <;> simp [hsk]
  · have hbranch : messageReactionAdd st ⟨false, true, tid, "🗑️"⟩ sendOk deleteOk
        = ({ st with mutedThreads := sinsert st.mutedThreads tid,
                     watchedThreads := aerase st.watchedThreads tid,
                     threads := aerase st.threads sk },
           ([Action.saveMutedAct (sinsert st.mutedThreads tid)] ++
             [Action.saveThreadsAct (aerase st.threads sk)]) ++
           ([Action.sendAct tid "🗑️ Thread will be deleted in 3 seconds..."] ++
             (if sendOk then
               [Action.waitAct 3000, Action.deleteThreadAct tid] ++
                 (if deleteOk then [] else [Action.logErrorAct])
             else [Action.logErrorAct]))) := by
      simp [messageReactionAdd, hw, hne, hsk]
    rw [hbranch]
    refine ⟨rfl, rfl, rfl, alookup_aerase_self _ _, alookup_aerase_self _ _, ?_, ?_⟩ <;>
      simp

/-- Witness for C2 at the concrete state: a plain mute leaves the binding
map unchanged, and a mute-plus-delete erases the binding for sess1. -/
theorem mute_reaction_frame_effects_witness :
    (messageReactionAdd stA ⟨false, true, "thr1", "🔇"⟩ true true).1.threads = stA.threads ∧
    (messageReactionAdd stA ⟨false, true, "thr1", "🗑️"⟩ true true).1.threads
      = aerase stA.threads "sess1" ∧
    alookup (messageReactionAdd stA ⟨false, true, "thr1", "🗑️"⟩ true true).1.threads "sess1"
      = none :=
  ⟨(mute_reaction_frame_effects stA "thr1" "sess1" true true (by decide) (by decide)).1.2.1,
    (mute_reaction_frame_effects stA "thr1" "sess1" true true (by decide) (by decide)).2.2.1,
    (mute_reaction_frame_effects stA "thr1" "sess1" true true (by decide) (by decide)).2.2.2.2.1⟩

-- ── Claim C10: mute-plus-delete persists before the grace wait ────────────

/-- Claim C10: in the mute-plus-delete path the muted set and the pruned
binding map are persisted, in that order, strictly before the countdown
post, the grace wait and the deletion attempt, and the resulting state does
not depend on whether the countdown post or the deletion succeed, so the
mute and the binding removal survive those failures. -/
theorem mute_delete_persists_before_deletion (st : ExtState) (tid sk : String)
    (sendOk deleteOk : Bool)
    (hw : alookup st.watchedThreads tid = some sk) (hsk : sk ≠ "") :
    (messageReactionAdd st ⟨false, true, tid, "🗑️"⟩ sendOk deleteOk).1
      = { st with mutedThreads := sinsert st.mutedThreads tid,
                  watchedThreads := aerase st.watchedThreads tid,
                  threads := aerase st.threads sk } ∧
    tid ∈ (messageReactionAdd st ⟨false, true, tid, "🗑️"⟩ sendOk deleteOk).1.mutedThreads ∧
    alookup (messageReactionAdd st ⟨false, true, tid, "🗑️"⟩ sendOk deleteOk).1.threads sk
      = none ∧
    (∃ rest, (messageReactionAdd st ⟨false, true, tid, "🗑️"⟩ sendOk deleteOk).2
        = Action.saveMutedAct (sinsert st.mutedThreads tid)
          :: Action.saveThreadsAct (aerase st.threads sk) :: rest ∧
      (∀ x, Action.saveMutedAct x ∉ rest) ∧
      (∀ x, Action.saveThreadsAct x ∉ rest)) := by
  have hne : ("🗑️" : String) ≠ "🔇" := by decide
  have hbranch : messageReactionAdd st ⟨false, true, tid, "🗑️"⟩ sendOk deleteOk
      = ({ st with mutedThreads := sinsert st.mutedThreads tid,
                   watchedThreads := aerase st.watchedThreads tid,
                   threads := aerase st.threads sk },
         ([Action.saveMutedAct (sinsert st.mutedThreads tid)] ++
           [Action.saveThreadsAct (aerase st.threads sk)]) ++
         ([Action.sendAct tid "🗑️ Thread will be deleted in 3 seconds..."] ++
           (if sendOk then
             [Action.waitAct 3000, Action.deleteThreadAct tid] ++
               (if deleteOk then [] else [Action.logErrorAct])
           else [Action.logErrorAct]))) := by
    simp [messageReactionAdd, hw, hne, hsk]
  rw [hbranch]
  refine ⟨rfl, mem_sinsert_self _ _, alookup_aerase_self _ _,
    ⟨Action.sendAct tid "🗑️ Thread will be deleted in 3 seconds..." ::
      (if sendOk then
        [Action.waitAct 3000, Action.deleteThreadAct tid] ++
          (if deleteOk then [] else [Action.logErrorAct])
      else [Action.logErrorAct]), rfl, ?_, ?_⟩⟩ <;>
    cases sendOk <;> cases deleteOk <;> simp

/-- Witness for C10 at the concrete state with both the countdown post and
the deletion failing: the state still holds the mute and the erased binding,
and the two persist actions open the trace. -/
theorem mute_delete_persists_before_deletion_witness :
    (messageReactionAdd stA ⟨false, true, "thr1", "🗑️"⟩ false false).1
      = { stA with mutedThreads := sinsert stA.mutedThreads "thr1",
                   watchedThreads := aerase stA.watchedThreads "thr1",
                   threads := aerase stA.threads "sess1" } ∧
    "thr1" ∈ (messageReactionAdd stA ⟨false, true, "thr1", "🗑️"⟩ false false).1.mutedThreads ∧
    alookup (messageReactionAdd stA ⟨false, true, "thr1", "🗑️"⟩ false false).1.threads "sess1"
      = none :=
  ⟨(mute_delete_persists_before_deletion stA "thr1" "sess1" false false (by decide)
      (by decide)).1,
    (mute_delete_persists_before_deletion stA "thr1" "sess1" false false (by decide)
      (by decide)).2.1,
    (mute_delete_persists_before_deletion stA "thr1" "sess1" false false (by decide)
      (by decide)).2.2.1⟩

-- ── Claim C3: muted bindings resolve to null without fetch or creation ────

/-- Claim C3: when the session key is bound to a thread id that is in the
muted set, getOrCreateThread returns null with no state change and an empty
effect trace, so no thread fetch, no thread creation and hence no outbound
send happens for that session. -/
theorem muted_binding_resolves_null (st : ExtState) (renv : ResolveEnv) (ctx : Ctx)
    (sessionName : Option String) (hasEmbed : Bool) (cfg : DiscordConfig) (sk tid : String)
    (hc : st.clientLive = true) (hcfg : st.config = some cfg)
    (hk : ctx.sessionKey = some sk) (hsk : sk ≠ "")
    (hb : alookup st.threads sk = some tid) (hm : tid ∈ st.mutedThreads) :
    getOrCreateThread st renv ctx sessionName hasEmbed = (st, [], none) := by
  simp [getOrCreateThread, hc, hcfg, hk, hsk, hb, hm]

/-- Witness for C3: with thr1 muted, resolution of sess1 yields null, no
state change and no effect. -/
theorem muted_binding_resolves_null_witness :
    getOrCreateThread { stA with mutedThreads := ["thr1"] }
        { fetchThread := fun _ => FetchResult.fetchError, unarchiveOk := true,
          channel := some ChannelKind.guildForum, newThreadId := "thr2", createOk := true }
        { cwdBase := "proj", cwd := "/home/proj", sessionKey := some "sess1" } none false
      = ({ stA with mutedThreads := ["thr1"] }, [], none) :=
  muted_binding_resolves_null { stA with mutedThreads := ["thr1"] }
    { fetchThread := fun _ => FetchResult.fetchError, unarchiveOk := true,
      channel := some ChannelKind.guildForum, newThreadId := "thr2", createOk := true }
    { cwdBase := "proj", cwd := "/home/proj", sessionKey := some "sess1" } none false
    cfgA "sess1" "thr1" rfl rfl rfl (by decide) rfl (by decide)

-- ── Claim C4: stale bindings are evicted and recreated ────────────────────

/-- Claim C4: when the bound thread id is stale (its fetch throws) and the
configured channel is usable, getOrCreateThread persists the evicted binding
map, creates a fresh thread, records and persists the new binding and the
new watched index entry, and returns the fresh id, never the stale one. -/
theorem stale_binding_evicted_and_recreated (st : ExtState) (renv : ResolveEnv) (ctx : Ctx)
    (sessionName : Option String) (hasEmbed : Bool) (cfg : DiscordConfig) (sk staleId : String)
    (hc : st.clientLive = true) (hcfg : st.config = some cfg)
    (hk : ctx.sessionKey = some sk) (hsk : sk ≠ "")
    (hb : alookup st.threads sk = some staleId) (hm : staleId ∉ st.mutedThreads)
    (hf : renv.fetchThread staleId = FetchResult.fetchError)
    (hch : renv.channel = some ChannelKind.guildForum ∨ renv.channel = some ChannelKind.guildText)
    (hco : renv.createOk = true) (hfresh : renv.newThreadId ≠ staleId) :
    (getOrCreateThread st renv ctx sessionName hasEmbed).2.2 = some renv.newThreadId ∧
    (getOrCreateThread st renv ctx sessionName hasEmbed).2.2 ≠ some staleId ∧
    alookup (getOrCreateThread st renv ctx sessionName hasEmbed).1.threads sk
      = some renv.newThreadId ∧
    alookup (getOrCreateThread st renv ctx sessionName hasEmbed).1.watchedThreads staleId
      = none ∧
    alookup (getOrCreateThread st renv ctx sessionName hasEmbed).1.watchedThreads
      renv.newThreadId = some sk ∧
    Action.saveThreadsAct (aerase st.threads sk)
      ∈ (getOrCreateThread st renv ctx sessionName hasEmbed).2.1 ∧
    Action.saveThreadsAct (getOrCreateThread st renv ctx sessionName hasEmbed).1.threads
      ∈ (getOrCreateThread st renv ctx sessionName hasEmbed).2.1 := by
  have hres : getOrCreateThread st renv ctx sessionName hasEmbed
      = ({ st with threads := aset (aerase st.threads sk) sk renv.newThreadId,
                   watchedThreads := aset (aerase st.watchedThreads staleId)
                     renv.newThreadId sk },
         ([Action.fetchThreadAct staleId] ++
           [Action.saveThreadsAct (aerase st.threads sk)]) ++
           [Action.fetchChannelAct cfg.channelId] ++
           (match renv.channel with
            | some ChannelKind.guildForum =>
              [Action.createThreadAct ChannelKind.guildForum
                  (makeThreadName ctx.cwdBase sessionName) renv.newThreadId,
                if hasEmbed then Action.seedEmbedAct
                else Action.seedMessageAct
                  ("🤖 pi session started — " ++ makeThreadName ctx.cwdBase sessionName)]
            | _ =>
              [Action.createThreadAct ChannelKind.guildText
                  (makeThreadName ctx.cwdBase sessionName) renv.newThreadId] ++
                (if hasEmbed then [Action.seedEmbedAct] else [])) ++
           [Action.saveThreadsAct (aset (aerase st.threads sk) sk renv.newThreadId)],
         some renv.newThreadId) := by
    rcases hch with hch | hch <;>
      simp [getOrCreateThread, hc, hcfg, hk, hsk, hb, hm, hf, evictStale, evictActs,
        createNewThread, hch, hco]
  rw [hres]
  refine ⟨rfl, by simp [hfresh], alookup_aset_self _ _ _, ?_, alookup_aset_self _ _ _,
    ?_, ?_⟩
  · rw [alookup_aset_ne _ _ _ _ (Ne.symm hfresh)]
    exact alookup_aerase_self _ _
  · simp
  · simp

/-- Witness for C4: the binding sess1 to thr1 is stale, so resolution
creates thr2, rebinds sess1 to it and never returns thr1. -/
theorem stale_binding_evicted_and_recreated_witness :
    (getOrCreateThread stA
        { fetchThread := fun _ => FetchResult.fetchError, unarchiveOk := true,
          channel := some ChannelKind.guildForum, newThreadId := "thr2", createOk := true }
        { cwdBase := "proj", cwd := "/home/proj", sessionKey := some "sess1" } none false).2.2
      = some "thr2" ∧
    alookup (getOrCreateThread stA
        { fetchThread := fun _ => FetchResult.fetchError, unarchiveOk := true,
          channel := some ChannelKind.guildForum, newThreadId := "thr2", createOk := true }
        { cwdBase := "proj", cwd := "/home/proj", sessionKey := some "sess1" } none
        false).1.threads "sess1" = some "thr2" :=
  ⟨(stale_binding_evicted_and_recreated stA
      { fetchThread := fun _ => FetchResult.fetchError, unarchiveOk := true,
        channel := some ChannelKind.guildForum, newThreadId := "thr2", createOk := true }
      { cwdBase := "proj", cwd := "/home/proj", sessionKey := some "sess1" } none false
      cfgA "sess1" "thr1" rfl rfl rfl (by decide) rfl (by decide) rfl (Or.inl rfl) rfl
      (by decide)).1,
    (stale_binding_evicted_and_recreated stA
      { fetchThread := fun _ => FetchResult.fetchError, unarchiveOk := true,
        channel := some ChannelKind.guildForum, newThreadId := "thr2", createOk := true }
      { cwdBase := "proj", cwd := "/home/proj", sessionKey := some "sess1" } none false
      cfgA "sess1" "thr1" rfl rfl rfl (by decide) rfl (by decide) rfl (Or.inl rfl) rfl
      (by decide)).2.2.1⟩

-- ── Claim C5: voice transcription round-trip ──────────────────────────────

theorem transcribe_some_ne_empty (env : Env) (url t : String)
    (h : transcribeVoiceMessage env url = some t) : t ≠ "" := by
  unfold transcribeVoiceMessage at h
  by_cases h1 : (env.voice url).fetchOk <;> simp [h1] at h
  by_cases h2 : (env.voice url).ffmpegOk <;> simp [h2] at h
  by_cases h3 : (env.voice url).readWavOk <;> simp [h3] at h
  cases hasr : (env.voice url).asrText with
  | none => rw [hasr] at h; simp at h
  | some s =>
    rw [hasr] at h
    simp only at h
    by_cases h4 : jsTrim s = ""
    · simp [h4] at h
    · simp only [h4, if_false, Option.some.injEq] at h
      rw [← h]
      exact h4

/-- A voice message of the current session accepted by the handler. -/
def msgVoice : Msg :=
  { authorBot := false, isThread := true, channelId := "thr1", flagsVoice := true,
    attachments := [{ url := "voice-url", contentType := some "audio/ogg" }], content := "" }

/-- Claim C5: for an accepted voice message with no image attachments, a
successful transcription is delivered as the turn text and echoed verbatim
(inside the quoting decoration) back into the thread; a failed transcription
posts an error reply and delivers no turn. -/
theorem voice_transcription_roundtrip (st : ExtState) (env : Env) (m : Msg)
    (va : Attachment) (sk : String)
    (hbot : m.authorBot = false) (hthr : m.isThread = true)
    (hw : alookup st.watchedThreads m.channelId = some sk) (hske : sk ≠ "")
    (hcur : st.currentSessionFile = some sk)
    (hva : voiceAttachmentOf m = some va) :
    (∀ t, transcribeVoiceMessage env va.url = some t → imageAttachmentsOf m = [] →
      (messageCreate st env m).2 = some (TurnContent.plain t, deliveryModeOf st.isAgentBusy) ∧
      Action.replyAct ("🎙️ *\"" ++ t ++ "\"*") ∈ (messageCreate st env m).1) ∧
    (transcribeVoiceMessage env va.url = none →
      (messageCreate st env m).2 = none ∧
      Action.replyAct "❌ Failed to transcribe voice message" ∈ (messageCreate st env m).1) := by
  constructor
  · intro t ht himg
    have hne : t ≠ "" := transcribe_some_ne_empty env va.url t ht
    simp [messageCreate, messageCreateCore, hbot, hthr, hw, hske, hcur, hva, ht,
      routeTextAndImages, himg, hne]
  · intro ht
    simp [messageCreate, messageCreateCore, hbot, hthr, hw, hske, hcur, hva, ht]

/-- Witness for C5: the concrete voice message transcribes to hello world,
which is delivered as the turn and echoed in the confirmation reply. -/
theorem voice_transcription_roundtrip_witness :
    (messageCreate stA envA msgVoice).2
      = some (TurnContent.plain "hello world", deliveryModeOf stA.isAgentBusy) ∧
    Action.replyAct ("🎙️ *\"" ++ "hello world" ++ "\"*") ∈ (messageCreate stA envA msgVoice).1 :=
  (voice_transcription_roundtrip stA envA msgVoice
      { url := "voice-url", contentType := some "audio/ogg" } "sess1"
      rfl rfl (by decide) (by decide) rfl (by decide)).1 "hello world" (by decide) (by decide)

-- ── Claim C6 (corrected): zero decoded images drop the turn only without text

/-- A message carrying one image attachment whose download fails, plus text. -/
def msgImg : Msg :=
  { authorBot := false, isThread := true, channelId := "thr1", flagsVoice := false,
    attachments := [{ url := "img-url", contentType := some "image/png" }], content := "hi" }

/-- Counterexample to C6 as stated: msgImg carries one image attachment,
its download fails (zero images decode), yet the handler still delivers a
turn, namely a single-text-part turn holding the message text, instead of
dropping the message. -/
theorem image_zero_decode_drop_counterexample :
    imageAttachmentsOf msgImg = [{ url := "img-url", contentType := some "image/png" }] ∧
    downloadImageAsBase64 envA "img-url" = none ∧
    (messageCreate stA envA msgImg).2
      = some (TurnContent.parts [ContentPart.textPart "hi"], DeliveryMode.followUp) := by
  refine ⟨by decide, rfl, by decide⟩

/-- Claim C6 as amended: for an accepted non-voice message with image
attachments none of which decodes, the turn is dropped silently exactly when
the message carried no text; when text was supplied, a turn holding only
that text part is delivered instead. -/
theorem image_zero_decode_drop_amended (st : ExtState) (env : Env) (m : Msg) (sk : String)
    (hbot : m.authorBot = false) (hthr : m.isThread = true)
    (hw : alookup st.watchedThreads m.channelId = some sk) (hske : sk ≠ "")
    (hcur : st.currentSessionFile = some sk)
    (hvoice : voiceAttachmentOf m = none)
    (himg : imageAttachmentsOf m ≠ [])
    (hfail : ∀ a ∈ imageAttachmentsOf m, downloadImageAsBase64 env a.url = none) :
    (m.content = "" → (messageCreate st env m).2 = none) ∧
    (m.content ≠ "" →
      (messageCreate st env m).2
        = some (TurnContent.parts [ContentPart.textPart m.content],
            deliveryModeOf st.isAgentBusy)) := by
  have hparts : imageParts env (imageAttachmentsOf m) = [] := by
    simp only [imageParts, List.filterMap_eq_nil_iff]
    intro a ha
    simp [hfail a ha]
  have hlen : 0 < (imageAttachmentsOf m).length := List.length_pos_of_ne_nil himg
  constructor
  · intro hct
    simp [messageCreate, messageCreateCore, hbot, hthr, hw, hske, hcur, hvoice,
      routeTextAndImages, hct, hparts, hlen]
  · intro hct
    simp [messageCreate, messageCreateCore, hbot, hthr, hw, hske, hcur, hvoice,
      routeTextAndImages, hct, hparts, hlen]

/-- Witness for the amended C6: the concrete message with text hi and one
failing image yields the single-text-part turn. -/
theorem image_zero_decode_drop_amended_witness :
    (messageCreate stA envA msgImg).2
      = some (TurnContent.parts [ContentPart.textPart msgImg.content],
          deliveryModeOf stA.isAgentBusy) :=
  (image_zero_decode_drop_amended stA envA msgImg "sess1" rfl rfl (by decide) (by decide) rfl
      (by decide) (by decide) (by decide)).2 (by decide)

-- ── Claim C7: startBot returns structured results, never throws ───────────

/-- Start oracles with no token present and failing connection steps. -/
def envNoToken : StartEnv :=
  { token := none, loginOk := false, loginErr := "Invalid token",
    channelFetchOk := false, fetchErr := "Unknown channel", channelKind := none }

/-- Claim C7: startBot is a total function into a structured result: a
missing (or empty) token environment variable yields a failure result with
the state untouched and no connection attempt; a second start while the
client is live is a no-op success with no connection attempt; a login
failure or a configured-channel fetch failure yields a failure result with
the client left disconnected. -/
theorem start_bot_structured_results (st : ExtState) (env : StartEnv) :
    (getBotToken env.token = none →
      startBot st env
        = (st, [],
            (⟨false, some "DISCORD_BOT_TOKEN environment variable not set"⟩ : StartResult))) ∧
    (∀ tok, getBotToken env.token = some tok → st.clientLive = true →
      startBot st env = (st, [], (⟨true, none⟩ : StartResult))) ∧
    (∀ tok, getBotToken env.token = some tok → st.clientLive = false → env.loginOk = false →
      startBot st env
        = ({ st with clientLive := false }, [Action.loginAct],
            (⟨false, some env.loginErr⟩ : StartResult))) ∧
    (∀ tok cfg, getBotToken env.token = some tok → st.clientLive = false →
      env.loginOk = true → st.config = some cfg → env.channelFetchOk = false →
      startBot st env
        = ({ st with clientLive := false },
            [Action.loginAct, Action.fetchChannelAct cfg.channelId],
            (⟨false, some env.fetchErr⟩ : StartResult))) := by
  refine ⟨fun h => by simp [startBot, h], fun tok h hc => by simp [startBot, h, hc],
    fun tok h hc hl => by simp [startBot, h, hc, hl],
    fun tok cfg h hc hl hcfg hch => by simp [startBot, h, hc, hl, hcfg, hch]⟩

/-- Witness for C7: without a token the start fails structurally and leaves
the state untouched; with a token and a live client the start is a no-op
success. -/
theorem start_bot_structured_results_witness :
    startBot stA envNoToken
      = (stA, [],
          (⟨false, some "DISCORD_BOT_TOKEN environment variable not set"⟩ : StartResult)) ∧
    startBot stA { envNoToken with token := some "tok" }
      = (stA, [], (⟨true, none⟩ : StartResult)) :=
  ⟨(start_bot_structured_results stA envNoToken).1 rfl,
    (start_bot_structured_results stA { envNoToken with token := some "tok" }).2.1 "tok"
      (by decide) rfl⟩

-- ── Claim C8: long turns get the attention embed besides the mirror ───────

theorem agentEndRename_preserves (st0 : ExtState) (ctx : Ctx) (sn g : Option String) :
    ((agentEndRename st0 ctx sn g).1).config = st0.config ∧
    ((agentEndRename st0 ctx sn g).1).clientLive = st0.clientLive ∧
    ((agentEndRename st0 ctx sn g).1).threads = st0.threads ∧
    ((agentEndRename st0 ctx sn g).1).mutedThreads = st0.mutedThreads ∧
    ((agentEndRename st0 ctx sn g).1).watchedThreads = st0.watchedThreads ∧
    ((agentEndRename st0 ctx sn g).1).agentStartTime = st0.agentStartTime := by
  simp only [agentEndRename]
  repeat' split
  all_goals exact ⟨rfl, rfl, rfl, rfl, rfl, rfl⟩

theorem getOrCreateThread_existing (st : ExtState) (renv : ResolveEnv) (ctx : Ctx)
    (sessionName : Option String) (hasEmbed : Bool) (cfg : DiscordConfig) (sk tid : String)
    (hc : st.clientLive = true) (hcfg : st.config = some cfg)
    (hk : ctx.sessionKey = some sk) (hsk : sk ≠ "")
    (hb : alookup st.threads sk = some tid) (hm : tid ∉ st.mutedThreads)
    (hf : renv.fetchThread tid = FetchResult.thread false) :
    getOrCreateThread st renv ctx sessionName hasEmbed
      = (st, [Action.fetchThreadAct tid], some tid) := by
  simp [getOrCreateThread, hc, hcfg, hk, hsk, hb, hm, hf]

/-- Claim C8: on turn completion, when the wall-clock duration exceeds the
configured minimum and the session resolves to its bound thread, the
attention embed is sent; and independently, when the completed turn also
carries a nonempty last assistant text, the plain-text mirror is sent too,
so a long turn with a textual response produces both sends. -/
theorem long_turn_sends_embed_and_mirror (st : ExtState) (renv : ResolveEnv) (ctx : Ctx)
    (now : Nat) (sessionName generated : Option String)
    (eventMessages : Option (List ChatMsg)) (cfg : DiscordConfig) (sk tid : String)
    (hcfg : st.config = some cfg) (hen : cfg.enabled = true) (hc : st.clientLive = true)
    (hk : ctx.sessionKey = some sk) (hsk : sk ≠ "")
    (hb : alookup st.threads sk = some tid) (hm : tid ∉ st.mutedThreads)
    (hf : renv.fetchThread tid = FetchResult.thread false)
    (hdur : cfg.minDurationMs < now - st.agentStartTime) :
    Action.sendEmbedAct tid ctx.cwdBase (durationStrOf (now - st.agentStartTime)) ctx.cwd
      ∈ (agentEnd st renv ctx now sessionName generated eventMessages).2 ∧
    (∀ msgsL lm, eventMessages = some msgsL → extractLastAssistantText msgsL = some lm →
      lm ≠ "" →
      Action.sendAct tid (truncateText lm 1900)
        ∈ (agentEnd st renv ctx now sessionName generated eventMessages).2) := by
  obtain ⟨hp1, hp2, hp3, hp4, hp5, hp6⟩ :=
    agentEndRename_preserves { st with isAgentBusy := false } ctx sessionName generated
  simp only [agentEnd]
  generalize hr : agentEndRename { st with isAgentBusy := false } ctx sessionName generated = r
    at hp1 hp2 hp3 hp4 hp5 hp6 ⊢
  dsimp only at hp1 hp2 hp3 hp4 hp5 hp6
  have hcfg1 : r.1.config = some cfg := by rw [hp1]; exact hcfg
  have hc1 : r.1.clientLive = true := by rw [hp2]; exact hc
  have hb1 : alookup r.1.threads sk = some tid := by rw [hp3]; exact hb
  have hm1 : tid ∉ r.1.mutedThreads := by rw [hp4]; exact hm
  have hen1 : cfgEnabled r.1 = true := by simp [cfgEnabled, hcfg1, hen]
  have hres := getOrCreateThread_existing r.1 renv ctx sessionName false cfg sk tid
    hc1 hcfg1 hk hsk hb1 hm1 hf
  have hge : cfg.minDurationMs ≤ now - r.1.agentStartTime := by rw [hp6]; omega
  constructor
  · simp [hen1, hc1, hcfg1, hres, hp6, hge]
    exact Or.inr (Or.inr (by omega))
  · intro msgsL lm hev hlm hlme
    subst hev
    simp [hen1, hc1, hcfg1, hres, hp6, hge, hlm, hlme]

/-- Existing-thread resolver oracles for the C8 witness. -/
def renvExist : ResolveEnv :=
  { fetchThread := fun _ => FetchResult.thread false, unarchiveOk := true,
    channel := some ChannelKind.guildText, newThreadId := "thr9", createOk := true }

/-- Context fixture for the C8 witness. -/
def ctxA : Ctx := { cwdBase := "proj", cwd := "/home/proj", sessionKey := some "sess1" }

/-- Witness for C8: a 20000 ms turn against the 15000 ms minimum sends the
attention embed and, the last assistant text being done, also the mirror. -/
theorem long_turn_sends_embed_and_mirror_witness :
    Action.sendEmbedAct "thr1" ctxA.cwdBase (durationStrOf (20000 - stA.agentStartTime))
        ctxA.cwd
      ∈ (agentEnd stA renvExist ctxA 20000 none none
          (some [{ role := "assistant", content := ChatContent.str "done" }])).2 ∧
    Action.sendAct "thr1" (truncateText "done" 1900)
      ∈ (agentEnd stA renvExist ctxA 20000 none none
          (some [{ role := "assistant", content := ChatContent.str "done" }])).2 :=
  ⟨(long_turn_sends_embed_and_mirror stA renvExist ctxA 20000 none none
      (some [{ role := "assistant", content := ChatContent.str "done" }])
      cfgA "sess1" "thr1" rfl rfl rfl rfl (by decide) rfl (by decide) rfl (by decide)).1,
    (long_turn_sends_embed_and_mirror stA renvExist ctxA 20000 none none
      (some [{ role := "assistant", content := ChatContent.str "done" }])
      cfgA "sess1" "thr1" rfl rfl rfl rfl (by decide) rfl (by decide) rfl (by decide)).2
      [{ role := "assistant", content := ChatContent.str "done" }] "done" rfl (by decide)
      (by decide)⟩

end DiscordNotify
